import Mathlib

/-!
Verification of the worksheet-generator tools module
(app/features/worksheet_generator/tools.py): content loaders, the
composable RAG pipeline, and the quiz-question builder.

Python runtime values that flow through the quiz builder (parsed JSON
responses) are modelled by the inductive type PyVal below; Python dicts
are association lists of PyVal pairs, preserving insertion order as
Python dicts do.
-/

set_option autoImplicit false

/-- Model of a Python runtime value as handled by the quiz builder:
strings, integers, dicts (ordered association lists, arbitrary keys as in
Python), lists, and None. -/
inductive PyVal where
  | str : String → PyVal
  | int : Int → PyVal
  | dict : List (PyVal × PyVal) → PyVal
  | list : List PyVal → PyVal
  | none : PyVal

namespace PyVal

/-- Python isinstance(v, str). -/
def isStr : PyVal → Bool
  | .str _ => true
  | _ => false

end PyVal

/-- Python equality test between a dict key and a string literal:
a non-string key never equals a string. -/
def pyKeyEq (v : PyVal) (k : String) : Bool :=
  match v with
  | .str s => s == k
  | _ => false

/-- Python membership test: the string k is a key of the dict entries. -/
def dictHasKey (entries : List (PyVal × PyVal)) (k : String) : Bool :=
  entries.any (fun e => pyKeyEq e.1 k)

/-- Python subscript lookup entries[k] for a string key: first matching
entry, as in a Python dict (whose keys are unique). -/
def dictGet (entries : List (PyVal × PyVal)) (k : String) : Option PyVal :=
  match entries with
  | [] => Option.none
  | (key, v) :: rest => if pyKeyEq key k then some v else dictGet rest k

/-- Python dict assignment entries[k] = v: replaces the value at an
existing key in place (keeping its position), appends otherwise. -/
def dictSet (entries : List (PyVal × PyVal)) (k : String) (v : PyVal) :
    List (PyVal × PyVal) :=
  match entries with
  | [] => [(.str k, v)]
  | (key, w) :: rest =>
      if pyKeyEq key k then (key, v) :: rest
      else (key, w) :: dictSet rest k v

namespace QuizBuilder

/-- QuizBuilder.validate_response: the response must be a dict carrying
the keys question, choices, answer and explanation; its choices value
must be a dict all of whose keys and values are strings; anything else
is invalid.  (The TypeError guard of the source cannot fire in this
value model: every inspection step here is total.) -/
def validate_response (response : PyVal) : Bool :=
  match response with
  | .dict entries =>
      if dictHasKey entries "question" && dictHasKey entries "choices"
          && dictHasKey entries "answer" && dictHasKey entries "explanation" then
        match dictGet entries "choices" with
        | some (.dict choices) =>
            choices.all (fun kv => kv.1.isStr && kv.2.isStr)
        | _ => false
      else false
  | _ => false

/-- QuizBuilder.format_choices: turns the choices dict into a list of
two-entry dicts, preserving insertion order. -/
def format_choices (choices : List (PyVal × PyVal)) : PyVal :=
  .list (choices.map fun kv => .dict [(.str "key", kv.1), (.str "value", kv.2)])

/-- The in-place update response["choices"] = format_choices(response["choices"])
performed on each accepted response.  Only ever applied to responses that
passed validate_response, whose choices entry is a dict; on any other
shape the update leaves the value unchanged (that branch is unreachable
in create_questions). -/
def formatResponseChoices (response : PyVal) : PyVal :=
  match response with
  | .dict entries =>
      match dictGet entries "choices" with
      | some (.dict choices) =>
          .dict (dictSet entries "choices" (format_choices choices))
      | _ => response
  | _ => response

/-- Observable side effects of one create_questions call: each chain.invoke
(tagged with the value of the attempt counter at the moment of the call)
and each vectorstore.delete_collection call. -/
inductive QuizEvent where
  | chainInvoke : Nat → QuizEvent
  | deleteCollection : QuizEvent
deriving DecidableEq, Repr

/-- The while loop of create_questions.  The chain is modelled as a map
from the attempt counter to the response of that invocation.  Returns the
accumulated question list, the final attempt counter, and the event
trace of the loop.  The recursion is structural on a fuel argument; the
loop is entered with fuel = max_attempts and attempts = 0, so fuel always
equals max_attempts - attempts and the fuel-exhausted base case coincides
with the normal exit of the while condition. -/
def genLoop (chain : Nat → PyVal) (num_questions max_attempts : Nat) :
    Nat → Nat → List PyVal → List PyVal × Nat × List QuizEvent
  | 0, attempts, generated => (generated, attempts, [])
  | fuel + 1, attempts, generated =>
    if generated.length < num_questions ∧ attempts < max_attempts then
      let response := chain attempts
      let generated' :=
        if validate_response response then
          generated ++ [formatResponseChoices response]
        else generated
      let rest := genLoop chain num_questions max_attempts fuel (attempts + 1) generated'
      (rest.1, rest.2.1, .chainInvoke attempts :: rest.2.2)
    else
      (generated, attempts, [])

/-- Result of one create_questions call: the returned Python value,
the event trace, and whether the chain was compiled (the compile() call
sits after the cap check in the source). -/
structure QuizRun where
  result : PyVal
  events : List QuizEvent
  compiledChain : Bool

/-- The structured error payload returned when num_questions exceeds 10. -/
def errorPayload : PyVal :=
  .dict [(.str "message", .str "error"),
         (.str "data", .str "Number of questions cannot exceed 10")]

/-- QuizBuilder.create_questions: cap check, chain compilation, the
bounded generation loop (max_attempts = num_questions * 5 starting from
attempts = 0 and an empty list), the unconditional delete_collection
after the loop, and the truncating return generated_questions[:num_questions]. -/
def create_questions (chain : Nat → PyVal) (num_questions : Nat) : QuizRun :=
  if num_questions > 10 then
    { result := errorPayload, events := [], compiledChain := false }
  else
    let max_attempts := num_questions * 5
    let run := genLoop chain num_questions max_attempts max_attempts 0 []
    { result := .list (run.1.take num_questions),
      events := run.2.2 ++ [.deleteCollection],
      compiledChain := true }

/-- Number of chain invocations recorded in a trace. -/
def countChainInvokes (evs : List QuizEvent) : Nat :=
  (evs.filter fun e => match e with | .chainInvoke _ => true | _ => false).length

/-- Number of delete_collection calls recorded in a trace. -/
def countDeletes (evs : List QuizEvent) : Nat :=
  (evs.filter fun e => match e with | .deleteCollection => true | _ => false).length

end QuizBuilder

/-- Model of a langchain Document as produced by the loaders: page text
plus the two metadata fields the loaders set (source and 1-based
page_number). -/
structure Document where
  page_content : String
  source : String
  page_number : Nat
deriving DecidableEq, Repr

/-- Outcome of requests.get(url) followed by response.raise_for_status():
either the response content (status was good), or a
requests.RequestException (transport error, timeout, or bad status). -/
inductive FetchOutcome where
  | success : List Nat → FetchOutcome
  | requestException : String → FetchOutcome
deriving DecidableEq, Repr

/-- What a URLLoader.load call can observably do: return a value (the
response bytes, or Python None on failure), or raise a LoaderError.  The
raise alternative exists so that specification-level statements about
raising are expressible; the code below never produces it. -/
inductive URLLoadResult where
  | ok : Option (List Nat) → URLLoadResult
  | raisedLoaderError : String → URLLoadResult
deriving DecidableEq, Repr

namespace URLLoader

/-- URLLoader.load: takes a single url, issues one GET (modelled by the
injected fetch outcome map); on success returns the response content, on
any requests.RequestException logs and returns None.  The file_type the
source derives from the parsed URL path feeds only a verbose debug log
and never affects the result, so it is not modelled. -/
def load (fetch : String → FetchOutcome) (url : String) : URLLoadResult :=
  match fetch url with
  | .success content => .ok (some content)
  | .requestException _ => .ok Option.none

end URLLoader

namespace LocalFileLoader

/-- Python str.split on a one-character separator, over the character
list of the string: splitting the empty string gives one empty field,
and each separator occurrence starts a new field. -/
def splitOnChar (sep : Char) : List Char → List (List Char)
  | [] => [[]]
  | c :: rest =>
      let r := splitOnChar sep rest
      if c = sep then [] :: r
      else
        match r with
        | [] => [[c]]
        | g :: gs => (c :: g) :: gs

/-- file_path.split(".")[-1]: the substring after the last dot (the whole
string when there is no dot), exactly as Python str.split computes it. -/
def fileTypeOf (path : String) : String :=
  ⟨(splitOnChar '.' path.data).getLastD []⟩

/-- Outcome of a LocalFileLoader.load call: the Document list, or a
raised ValueError with its message. -/
inductive LoadOutcome where
  | docs : List Document → LoadOutcome
  | valueError : String → LoadOutcome
deriving DecidableEq, Repr

/-- A load call together with the files it actually opened (in order):
the side effect the type-check claim is about. -/
structure LoadRun where
  openedFiles : List String
  outcome : LoadOutcome
deriving DecidableEq, Repr

/-- The per-path loop of LocalFileLoader.load: check the extension
against expected_file_type and raise ValueError on the first mismatch;
otherwise open the file (recorded in openedFiles), read its pages
(pdfPages models PdfReader page extraction), and emit one Document per
page with source = path and 1-based page_number. -/
def loadLoop (pdfPages : String → List String) (expected : String) :
    List String → List Document → LoadRun
  | [], documents => ⟨[], .docs documents⟩
  | path :: rest, documents =>
    let ft := fileTypeOf path
    if ft ≠ expected then
      ⟨[], .valueError ("Expected file type: " ++ expected ++ ", but got: " ++ ft)⟩
    else
      let pageDocs := (pdfPages path).enum.map
        (fun p => Document.mk p.2 path (p.1 + 1))
      let r := loadLoop pdfPages expected rest (documents ++ pageDocs)
      ⟨path :: r.openedFiles, r.outcome⟩

/-- LocalFileLoader.load on a list of paths (the source wraps a bare
string into a one-element list first; the list form is modelled). -/
def load (pdfPages : String → List String) (expected : String)
    (paths : List String) : LoadRun :=
  loadLoop pdfPages expected paths []

end LocalFileLoader

/-- Modelled from the spec: LoaderError (defined in
app/api/error_utilities.py, which is not part of the sources) is a plain
Exception subclass.  A Python Exception constructed from a single
argument renders (via str) as that argument, so a LoaderError built from
a string carries that string and a LoaderError built from another
exception renders as the wrapped exception does.  Wrapping always
creates a fresh exception object, which the structural distinction
between an error and its wrap mirrors. -/
inductive LoaderError where
  | ofString : String → LoaderError
  | wrap : LoaderError → LoaderError
deriving DecidableEq, Repr

/-- str(e) for a LoaderError: the message seen by callers and logs. -/
def LoaderError.message : LoaderError → String
  | .ofString m => m
  | .wrap e => e.message

/-- An exception travelling through the RAG pipeline: a LoaderError or
any other Python exception (kept abstract). -/
inductive PyErr where
  | loaderError : LoaderError → PyErr
  | other : String → PyErr
deriving DecidableEq, Repr

/-- A Python callable of one argument under exception semantics: it
returns a value or raises. -/
def PyFun (E α β : Type) := α → Except E β

/-- Python application g(arg) where arg is the outcome of evaluating the
argument expression: when that evaluation raised, g never runs and the
exception propagates. -/
def pyApp {E α β : Type} (g : PyFun E α β) (x : Except E α) : Except E β :=
  match x with
  | .ok v => g v
  | .error e => .error e

/-- RAGRunnable: wraps a callable. -/
structure RAGRunnable (E α β : Type) where
  func : PyFun E α β

namespace RAGRunnable

/-- RAGRunnable composition (the source spells it as the pipe operator):
returns a new runnable whose chained function passes the result of the
previous function as the sole argument to the next. -/
def orOp {E α β γ : Type} (self : RAGRunnable E α β) (other : PyFun E β γ) :
    RAGRunnable E α γ :=
  ⟨fun x => pyApp other (self.func x)⟩

/-- Invoking a RAGRunnable calls the wrapped function. -/
def call {E α β : Type} (r : RAGRunnable E α β) (x : α) : Except E β :=
  r.func x

end RAGRunnable

/-- RAGpipeline with its injected capabilities: the loader's load, the
splitter's split_documents, the vectorstore class's from_documents, and
the embedding model, each an abstract callable that may raise. -/
structure RAGpipeline (Files Doc Chunk Emb Index : Type) where
  loaderLoad : PyFun PyErr Files (List Doc)
  splitDocuments : PyFun PyErr (List Doc) (List Chunk)
  fromDocuments : List Chunk → Emb → Except PyErr Index
  embedding_model : Emb

namespace RAGpipeline

/-- RAGpipeline.load_PDFs: delegates to the loader; a LoaderError e from
the loader is caught, logged, and a new LoaderError constructed from e is
raised in its place; every other exception propagates untouched. -/
def load_PDFs {Files Doc Chunk Emb Index : Type}
    (p : RAGpipeline Files Doc Chunk Emb Index) : PyFun PyErr Files (List Doc) :=
  fun files =>
    match p.loaderLoad files with
    | .ok docs => .ok docs
    | .error (.loaderError e) => .error (.loaderError (.wrap e))
    | .error err => .error err

/-- RAGpipeline.split_loaded_documents: delegates to the splitter and
returns the accumulated chunk list (total_chunks starts empty and is
extended once). -/
def split_loaded_documents {Files Doc Chunk Emb Index : Type}
    (p : RAGpipeline Files Doc Chunk Emb Index) :
    PyFun PyErr (List Doc) (List Chunk) :=
  fun docs =>
    match p.splitDocuments docs with
    | .ok chunks => .ok (([] : List Chunk) ++ chunks)
    | .error e => .error e

/-- RAGpipeline.create_vectorstore: builds the index from the documents
and the embedding model and returns it. -/
def create_vectorstore {Files Doc Chunk Emb Index : Type}
    (p : RAGpipeline Files Doc Chunk Emb Index) :
    PyFun PyErr (List Chunk) Index :=
  fun docs => p.fromDocuments docs p.embedding_model

/-- RAGpipeline invocation: builds the composed stage chain
load_PDFs into split_loaded_documents into create_vectorstore (as
compile() wraps and the pipe operator chains them) and invokes it on the
input documents. -/
def call {Files Doc Chunk Emb Index : Type}
    (p : RAGpipeline Files Doc Chunk Emb Index) (documents : Files) :
    Except PyErr Index :=
  (((RAGRunnable.mk p.load_PDFs).orOp p.split_loaded_documents).orOp
      p.create_vectorstore).call documents

end RAGpipeline

/-- Length of the list inside a PyVal when it is a list. -/
def PyVal.listLen : PyVal → Option Nat
  | .list l => some l.length
  | _ => Option.none

/-- Length of the question list accumulated by the generation loop, under
a chain whose every response validates: the loop grows the list by one
per iteration until the target or the budget is hit. -/
lemma genLoop_valid_length (chain : Nat → PyVal) (n maxA : Nat)
    (hvalid : ∀ i, QuizBuilder.validate_response (chain i) = true) :
    ∀ (fuel att : Nat) (gen : List PyVal), maxA = att + fuel →
      ((QuizBuilder.genLoop chain n maxA fuel att gen).1).length =
        max gen.length (min n (gen.length + fuel)) := by
  intro fuel
  induction fuel with
  | zero =>
      intro att gen hm
      simp only [QuizBuilder.genLoop]
      omega
  | succ fuel ih =>
      intro att gen hm
      by_cases hlen : gen.length < n
      · have hatt : att < maxA := by omega
        simp only [QuizBuilder.genLoop, if_pos (And.intro hlen hatt)]
        rw [if_pos (hvalid att)]
        have := ih (att + 1) (gen ++ [QuizBuilder.formatResponseChoices (chain att)])
          (by omega)
        simp only [List.length_append, List.length_singleton] at this
        rw [this]
        omega
      · have hcond : ¬ (gen.length < n ∧ att < maxA) := by
          intro hc; exact hlen hc.1
        simp only [QuizBuilder.genLoop, if_neg hcond]
        omega

/-- Under a chain whose every response fails validation, the loop leaves
the accumulated list untouched, runs its attempt counter up to the
budget, and its trace is one chain invocation per attempt index. -/
lemma genLoop_invalid (chain : Nat → PyVal) (n maxA : Nat)
    (hinv : ∀ i, QuizBuilder.validate_response (chain i) = false) :
    ∀ (fuel att : Nat) (gen : List PyVal), maxA = att + fuel →
      gen.length < n →
      QuizBuilder.genLoop chain n maxA fuel att gen =
        (gen, maxA, (List.range' att fuel).map QuizBuilder.QuizEvent.chainInvoke) := by
  intro fuel
  induction fuel with
  | zero =>
      intro att gen hm hlen
      simp only [QuizBuilder.genLoop, List.range']
      simp [hm]
  | succ fuel ih =>
      intro att gen hm hlen
      have hatt : att < maxA := by omega
      simp only [QuizBuilder.genLoop, if_pos (And.intro hlen hatt)]
      rw [if_neg (by simp [hinv att])]
      rw [ih (att + 1) gen (by omega) hlen]
      simp [List.range']

/-- The trace produced by the generation loop contains no
delete_collection event; the single delete happens after the loop. -/
lemma genLoop_no_deletes (chain : Nat → PyVal) (n maxA : Nat) :
    ∀ (fuel att : Nat) (gen : List PyVal),
      QuizBuilder.countDeletes
        (QuizBuilder.genLoop chain n maxA fuel att gen).2.2 = 0 := by
  intro fuel
  induction fuel with
  | zero =>
      intro att gen
      simp [QuizBuilder.genLoop, QuizBuilder.countDeletes]
  | succ fuel ih =>
      intro att gen
      by_cases hcond : gen.length < n ∧ att < maxA
      · simp only [QuizBuilder.genLoop, if_pos hcond]
        by_cases hv : QuizBuilder.validate_response (chain att) = true
        · rw [if_pos hv]
          simp only [QuizBuilder.countDeletes, List.filter]
          exact ih (att + 1) _
        · rw [if_neg hv]
          simp only [QuizBuilder.countDeletes, List.filter]
          exact ih (att + 1) _
      · simp [QuizBuilder.genLoop, if_neg hcond, QuizBuilder.countDeletes]

/-- Counting chain invocations distributes over trace concatenation. -/
lemma countChainInvokes_append (l1 l2 : List QuizBuilder.QuizEvent) :
    QuizBuilder.countChainInvokes (l1 ++ l2) =
      QuizBuilder.countChainInvokes l1 + QuizBuilder.countChainInvokes l2 := by
  simp [QuizBuilder.countChainInvokes, List.filter_append]

/-- A trace of bare chain invocations counts as its length. -/
lemma countChainInvokes_map (l : List Nat) :
    QuizBuilder.countChainInvokes (l.map QuizBuilder.QuizEvent.chainInvoke)
      = l.length := by
  induction l with
  | nil => simp [QuizBuilder.countChainInvokes]
  | cons a l ih => simp [QuizBuilder.countChainInvokes, List.filter] at ih ⊢; omega

/-- Counting delete_collection calls distributes over concatenation. -/
lemma countDeletes_append (l1 l2 : List QuizBuilder.QuizEvent) :
    QuizBuilder.countDeletes (l1 ++ l2) =
      QuizBuilder.countDeletes l1 + QuizBuilder.countDeletes l2 := by
  simp [QuizBuilder.countDeletes, List.filter_append]

/-- C2: for every chain that always yields valid output and every
num_questions k with 1 <= k <= 10, create_questions returns a list of
exactly k questions. -/
theorem create_questions_exact_count (chain : Nat → PyVal) (k : Nat)
    (hk1 : 1 ≤ k) (hk10 : k ≤ 10)
    (hvalid : ∀ i, QuizBuilder.validate_response (chain i) = true) :
    PyVal.listLen (QuizBuilder.create_questions chain k).result = some k := by
  have hnot : ¬ k > 10 := by omega
  simp only [QuizBuilder.create_questions, if_neg hnot]
  have hlen := genLoop_valid_length chain k (k * 5) hvalid (k * 5) 0 [] (by omega)
  simp only [List.length_nil] at hlen
  simp only [PyVal.listLen, List.length_take, hlen]
  congr 1
  omega

/-- Witness for C2 at a concrete always-valid chain and k = 3. -/
theorem create_questions_exact_count_witness :
    PyVal.listLen (QuizBuilder.create_questions
      (fun _ => .dict [(.str "question", .str "q"),
                       (.str "choices", .dict [(.str "A", .str "a")]),
                       (.str "answer", .str "A"),
                       (.str "explanation", .str "e")]) 3).result = some 3 :=
  create_questions_exact_count _ 3 (by omega) (by omega) (fun _ => rfl)

/-- C3: for every chain whose every invocation yields an invalid
response and every k <= 10, create_questions terminates after exactly
k * 5 chain invocations and returns the empty list. -/
theorem create_questions_all_invalid (chain : Nat → PyVal) (k : Nat)
    (hk10 : k ≤ 10)
    (hinv : ∀ i, QuizBuilder.validate_response (chain i) = false) :
    QuizBuilder.countChainInvokes (QuizBuilder.create_questions chain k).events
        = k * 5 ∧
      (QuizBuilder.create_questions chain k).result = .list [] := by
  have hnot : ¬ k > 10 := by omega
  rcases Nat.eq_zero_or_pos k with hk0 | hkpos
  · subst hk0
    constructor
    · rfl
    · rfl
  · have hrun := genLoop_invalid chain k (k * 5) hinv (k * 5) 0 [] (by omega)
      (by simpa using hkpos)
    constructor
    · simp only [QuizBuilder.create_questions, if_neg hnot, hrun]
      rw [countChainInvokes_append, countChainInvokes_map]
      simp [QuizBuilder.countChainInvokes, List.length_range', List.filter]
    · simp [QuizBuilder.create_questions, if_neg hnot, hrun]

/-- Witness for C3 at a concrete always-invalid chain and k = 2. -/
theorem create_questions_all_invalid_witness :
    QuizBuilder.countChainInvokes
        (QuizBuilder.create_questions (fun _ => PyVal.none) 2).events = 2 * 5 ∧
      (QuizBuilder.create_questions (fun _ => PyVal.none) 2).result = .list [] :=
  create_questions_all_invalid (fun _ => PyVal.none) 2 (by omega) (fun _ => rfl)

/-- C4: for every num_questions greater than 10, create_questions
returns the structured error payload, compiles no chain, and performs no
chain invocation and no index deletion. -/
theorem create_questions_cap_exceeded (chain : Nat → PyVal) (k : Nat)
    (hk : k > 10) :
    (QuizBuilder.create_questions chain k).result =
        .dict [(.str "message", .str "error"),
               (.str "data", .str "Number of questions cannot exceed 10")] ∧
      (QuizBuilder.create_questions chain k).events = [] ∧
      (QuizBuilder.create_questions chain k).compiledChain = false := by
  have h : QuizBuilder.create_questions chain k =
      { result := QuizBuilder.errorPayload, events := [],
        compiledChain := false } := by
    simp only [QuizBuilder.create_questions, if_pos hk]
  rw [h]
  exact ⟨rfl, rfl, rfl⟩

/-- Witness for C4 at k = 11. -/
theorem create_questions_cap_exceeded_witness :
    (QuizBuilder.create_questions (fun _ => PyVal.none) 11).result =
        .dict [(.str "message", .str "error"),
               (.str "data", .str "Number of questions cannot exceed 10")] ∧
      (QuizBuilder.create_questions (fun _ => PyVal.none) 11).events = [] ∧
      (QuizBuilder.create_questions (fun _ => PyVal.none) 11).compiledChain
        = false :=
  create_questions_cap_exceeded (fun _ => PyVal.none) 11 (by omega)

/-- C5: every create_questions call that runs the generation loop (that
is, does not take the cap-exceeded early return) performs exactly one
delete_collection on the index, whatever the chain does. -/
theorem create_questions_deletes_index_once (chain : Nat → PyVal) (k : Nat)
    (hk : k ≤ 10) :
    QuizBuilder.countDeletes (QuizBuilder.create_questions chain k).events
      = 1 := by
  have hnot : ¬ k > 10 := by omega
  simp only [QuizBuilder.create_questions, if_neg hnot]
  rw [countDeletes_append, genLoop_no_deletes]
  rfl

/-- Witness for C5 at a concrete chain and k = 1. -/
theorem create_questions_deletes_index_once_witness :
    QuizBuilder.countDeletes
      (QuizBuilder.create_questions (fun _ => PyVal.none) 1).events = 1 :=
  create_questions_deletes_index_once (fun _ => PyVal.none) 1 (by omega)

/-- Counterexample to C1: a call whose only fetch fails (N = 1, M = 0)
returns the value None instead of raising LoaderError with the message
the claim requires. -/
theorem urlLoader_failed_fetch_cex :
    URLLoader.load (fun _ => .requestException "connection timed out")
        "https://example.com/docs/file.pdf" = .ok Option.none ∧
      URLLoader.load (fun _ => .requestException "connection timed out")
        "https://example.com/docs/file.pdf"
        ≠ .raisedLoaderError "Unable to load any files from URLs" := by
  exact ⟨rfl, by simp [URLLoader.load]⟩

/-- C1 (amended): URLLoader.load fetches one URL per call; a fetch that
raises a requests.RequestException is soft — the loader logs it and
returns None, raising no error at all (in particular no LoaderError),
and a successful fetch returns the raw response bytes rather than
Documents. -/
theorem urlLoader_load_requestException_returns_none
    (fetch : String → FetchOutcome) (url m : String)
    (h : fetch url = .requestException m) :
    URLLoader.load fetch url = .ok Option.none := by
  simp [URLLoader.load, h]

/-- Witness for the amended C1 at a concrete failing fetch. -/
theorem urlLoader_load_requestException_returns_none_witness :
    URLLoader.load (fun _ => .requestException "timeout")
      "https://example.com/a.pdf" = .ok Option.none :=
  urlLoader_load_requestException_returns_none
    (fun _ => .requestException "timeout") "https://example.com/a.pdf"
    "timeout" rfl

/-- A concrete pipeline whose loader raises LoaderError "boom". -/
def c6Loader : RAGpipeline Unit Unit Unit Nat Nat where
  loaderLoad := fun _ => .error (.loaderError (.ofString "boom"))
  splitDocuments := fun d => .ok d
  fromDocuments := fun _ _ => .ok 0
  embedding_model := 0

/-- Counterexample to C6: when the loader raises LoaderError "boom",
load_PDFs raises a fresh LoaderError constructed from it, not the very
same error: the raised error is the wrap of the original, which differs
from the original. -/
theorem load_PDFs_rewrap_cex :
    RAGpipeline.load_PDFs c6Loader () =
        Except.error (.loaderError (.wrap (.ofString "boom"))) ∧
      RAGpipeline.load_PDFs c6Loader ()
        ≠ Except.error (.loaderError (.ofString "boom")) := by
  constructor
  · rfl
  · simp [RAGpipeline.load_PDFs, c6Loader]

/-- C6 (amended): a LoaderError e raised by the injected loader during
load_PDFs is logged and replaced by a new LoaderError constructed from
e; the new error's message equals the original's, so the message (but
not the instance) reaches the caller, and the error is never swallowed. -/
theorem load_PDFs_wraps_loaderError {Files Doc Chunk Emb Index : Type}
    (p : RAGpipeline Files Doc Chunk Emb Index) (files : Files)
    (e : LoaderError)
    (h : p.loaderLoad files = .error (.loaderError e)) :
    p.load_PDFs files = .error (.loaderError (.wrap e)) ∧
      (LoaderError.wrap e).message = e.message := by
  constructor
  · simp [RAGpipeline.load_PDFs, h]
  · rfl

/-- Witness for the amended C6 at the concrete failing loader. -/
theorem load_PDFs_wraps_loaderError_witness :
    RAGpipeline.load_PDFs c6Loader () =
        Except.error (.loaderError (.wrap (.ofString "boom"))) ∧
      (LoaderError.wrap (.ofString "boom")).message =
        (LoaderError.ofString "boom").message :=
  load_PDFs_wraps_loaderError c6Loader () (.ofString "boom") rfl

/-- Files whose extension matches are opened and processed before a
later mismatching path aborts the call: the extension check sits inside
the per-path loop, so a mismatch raises ValueError at the first
offending path, after every earlier path has already been opened. -/
lemma loadLoop_mismatch (pdfPages : String → List String) (expected : String) :
    ∀ (paths : List String) (docs : List Document),
      (∃ p ∈ paths, LocalFileLoader.fileTypeOf p ≠ expected) →
      (LocalFileLoader.loadLoop pdfPages expected paths docs).openedFiles =
          paths.takeWhile (fun q => LocalFileLoader.fileTypeOf q == expected) ∧
        (LocalFileLoader.loadLoop pdfPages expected paths docs).outcome =
          .valueError ("Expected file type: " ++ expected ++ ", but got: " ++
            LocalFileLoader.fileTypeOf
              ((paths.dropWhile
                (fun q => LocalFileLoader.fileTypeOf q == expected)).headD "")) := by
  intro paths
  induction paths with
  | nil =>
      intro docs h
      simp at h
  | cons p rest ih =>
      intro docs h
      by_cases hp : LocalFileLoader.fileTypeOf p = expected
      · have hrest : ∃ q ∈ rest, LocalFileLoader.fileTypeOf q ≠ expected := by
          rcases h with ⟨q, hq, hne⟩
          rcases List.mem_cons.mp hq with hq | hq
          · exact absurd (hq ▸ hp) hne
          · exact ⟨q, hq, hne⟩
        have hstep := ih (docs ++ (pdfPages p).enum.map
          (fun q => Document.mk q.2 p (q.1 + 1))) hrest
        have hcond : ¬ (LocalFileLoader.fileTypeOf p ≠ expected) := by
          simp [hp]
        simp only [LocalFileLoader.loadLoop, if_neg hcond]
        constructor
        · simp [List.takeWhile_cons, hp, hstep.1]
        · simp [List.dropWhile_cons, hp, hstep.2]
      · simp only [LocalFileLoader.loadLoop, if_pos hp]
        constructor
        · simp [List.takeWhile_cons, hp]
        · simp [List.dropWhile_cons, hp]

/-- C7 (amended): when some path in the list has an extension other than
expected_file_type, load raises the type-mismatch ValueError of the
first such path, and the files it opened are exactly the paths before
that first offender (all of which match the expected type); the
offending file itself is never opened.  The claim as stated — that no
file at all is opened — fails whenever a matching path precedes the
offender. -/
theorem localFileLoader_mismatch_stops_at_first_offender
    (pdfPages : String → List String) (expected : String)
    (paths : List String)
    (h : ∃ p ∈ paths, LocalFileLoader.fileTypeOf p ≠ expected) :
    (LocalFileLoader.load pdfPages expected paths).outcome =
        .valueError ("Expected file type: " ++ expected ++ ", but got: " ++
          LocalFileLoader.fileTypeOf
            ((paths.dropWhile
              (fun q => LocalFileLoader.fileTypeOf q == expected)).headD "")) ∧
      (LocalFileLoader.load pdfPages expected paths).openedFiles =
        paths.takeWhile (fun q => LocalFileLoader.fileTypeOf q == expected) := by
  have hrun := loadLoop_mismatch pdfPages expected paths [] h
  exact ⟨hrun.2, hrun.1⟩

/-- Witness for the amended C7: with one valid pdf before a txt file,
load fails with the txt mismatch message having opened the pdf. -/
theorem localFileLoader_mismatch_stops_at_first_offender_witness :
    (LocalFileLoader.load (fun _ => ["Hello World"]) "pdf"
        ["a.pdf", "b.txt"]).outcome =
        .valueError "Expected file type: pdf, but got: txt" ∧
      (LocalFileLoader.load (fun _ => ["Hello World"]) "pdf"
        ["a.pdf", "b.txt"]).openedFiles = ["a.pdf"] :=
  localFileLoader_mismatch_stops_at_first_offender
    (fun _ => ["Hello World"]) "pdf" ["a.pdf", "b.txt"]
    ⟨"b.txt", by simp, by decide⟩

/-- Counterexample to C7: the same call fails the type check yet has
opened a file: the claim that no file on disk is ever opened during a
call that fails the check is false at this input. -/
theorem localFileLoader_opens_before_mismatch_cex :
    (LocalFileLoader.load (fun _ => ["Hello World"]) "pdf"
        ["a.pdf", "b.txt"]).openedFiles = ["a.pdf"] ∧
      (LocalFileLoader.load (fun _ => ["Hello World"]) "pdf"
        ["a.pdf", "b.txt"]).openedFiles ≠ [] ∧
      (LocalFileLoader.load (fun _ => ["Hello World"]) "pdf"
        ["a.pdf", "b.txt"]).outcome =
        .valueError "Expected file type: pdf, but got: txt" := by
  refine ⟨rfl, by decide, rfl⟩

/-- C8: composing two pipeline stages yields a stage whose invocation on
x is the second stage applied (under Python call semantics) to the first
stage's full output on x, and composition chains to arbitrary length. -/
theorem ragRunnable_or_composition {E α β γ δ : Type}
    (f : RAGRunnable E α β) (g : PyFun E β γ) (h : PyFun E γ δ) (x : α) :
    (f.orOp g).call x = pyApp g (f.call x) ∧
      ((f.orOp g).orOp h).call x = pyApp h (pyApp g (f.call x)) :=
  ⟨rfl, rfl⟩

/-- C9: invoking the compiled RAG pipeline as one composed call equals
manually calling load_PDFs, then split_loaded_documents on its result,
then create_vectorstore on that result, under Python call semantics. -/
theorem ragPipeline_call_equiv_manual {Files Doc Chunk Emb Index : Type}
    (p : RAGpipeline Files Doc Chunk Emb Index) (files : Files) :
    p.call files =
      pyApp p.create_vectorstore
        (pyApp p.split_loaded_documents (p.load_PDFs files)) :=
  rfl

/-- C10: every response dict carrying the keys question, choices, answer
and explanation whose choices value is the empty dict (whatever its other
values and extra keys) passes validate_response — the per-entry
string check on choices is vacuous — and a chain producing it has it
accepted into the question list returned by create_questions, with its
choices reshaped to the empty list. -/
theorem validate_response_empty_choices_accepted
    (entries : List (PyVal × PyVal))
    (hq : dictHasKey entries "question" = true)
    (hc : dictHasKey entries "choices" = true)
    (ha : dictHasKey entries "answer" = true)
    (he : dictHasKey entries "explanation" = true)
    (hempty : dictGet entries "choices" = some (.dict [])) :
    QuizBuilder.validate_response (.dict entries) = true ∧
      (QuizBuilder.create_questions (fun _ => .dict entries) 1).result =
        .list [QuizBuilder.formatResponseChoices (.dict entries)] := by
  have hval : QuizBuilder.validate_response (.dict entries) = true := by
    simp [QuizBuilder.validate_response, hq, hc, ha, he, hempty]
  refine ⟨hval, ?_⟩
  have hloop : QuizBuilder.genLoop (fun _ => PyVal.dict entries) 1 5 5 0 [] =
      ([QuizBuilder.formatResponseChoices (PyVal.dict entries)], 1,
        [QuizBuilder.QuizEvent.chainInvoke 0]) := by
    simp only [QuizBuilder.genLoop]
    rw [if_pos (by simp : ([] : List PyVal).length < 1 ∧ 0 < 5)]
    rw [if_pos hval]
    simp
  simp only [QuizBuilder.create_questions,
    if_neg (by omega : ¬ (1 : Nat) > 10), hloop]
  rfl

/-- Witness for C10 at a concrete response whose choices dict is empty,
with an extra key and a non-string value among the other entries. -/
theorem validate_response_empty_choices_accepted_witness :
    QuizBuilder.validate_response
        (.dict [(.str "question", .str "Q"), (.str "choices", .dict []),
                (.str "answer", .str "A"), (.str "explanation", .str "E"),
                (.str "difficulty", .int 3)])
        = true ∧
      (QuizBuilder.create_questions
        (fun _ => .dict [(.str "question", .str "Q"),
                         (.str "choices", .dict []),
                         (.str "answer", .str "A"),
                         (.str "explanation", .str "E"),
                         (.str "difficulty", .int 3)]) 1).result =
        .list [.dict [(.str "question", .str "Q"),
                      (.str "choices", .list []),
                      (.str "answer", .str "A"),
                      (.str "explanation", .str "E"),
                      (.str "difficulty", .int 3)]] :=
  validate_response_empty_choices_accepted
    [(.str "question", .str "Q"), (.str "choices", .dict []),
     (.str "answer", .str "A"), (.str "explanation", .str "E"),
     (.str "difficulty", .int 3)] rfl rfl rfl rfl rfl
